import Mathlib

/-!
Formal model of the SSB file lifecycle manager and the breakpoint
resynchronisation logic of the skytemple-ssb-debugger repository.
The definitions are shallow embeddings of
`skytemple_ssb_debugger/model/ssb_files/file_manager.py` (class
`SsbFileManager`) and of the save / breakpoint parts of
`skytemple_ssb_debugger/controller/ssb_editor.py` (class
`SSBEditorController`).  Theorems about the state transitions follow the
definitions.
-/

/-- One entry of a source map, as iterated by the editor controller:
`(routine_id, opcode_offset, line, column)`. -/
structure SourceMapEntry where
  routine_id : Nat
  opcode_offset : Nat
  line : Nat
  column : Nat
deriving DecidableEq, Repr

/-- A source map is an ordered table of entries. -/
abbrev SourceMap := List SourceMapEntry

/-- Modelled from the spec: the class `SsbLoadedFile`
(`model/ssb_files/file.py`) is not part of the sources; per the spec (§3,
TrackedFile) it is a plain record of the per-file lifecycle flags, the
compiled model (`ssb_model`, here an abstract `Nat` content id) and the
source maps of the two syntax projections. -/
structure SsbLoadedFile where
  filename : String
  ssb_model : Nat
  source_map_ssbs : SourceMap
  source_map_exps : SourceMap
  opened_in_editor : Bool
  opened_in_ground_engine : Bool
  ram_state_up_to_date : Bool
  not_breakable : Bool
deriving DecidableEq, Repr

/-- Errors a manager operation can signal: a Python `KeyError` on a missing
dictionary entry, or a compile failure (`ParseError` / `SsbCompilerError`
raised by the external `ScriptCompiler`, carried here as a message). -/
inductive PyError
  | keyError
  | compileError (msg : String)
deriving DecidableEq, Repr

/-- State of an `SsbFileManager`: the `_open_files` dictionary, the ROM
archive contents (per filename, an abstract serialized content id) and the
trace of `signal_editor_reload` events that were emitted (filenames, in
order). -/
structure FMState where
  open_files : String → Option SsbLoadedFile
  rom : String → Nat
  events : List String

/-- Store a file under its filename in `_open_files`. -/
def setFile (s : FMState) (fn : String) (f : SsbLoadedFile) : FMState :=
  { s with open_files := fun n => if n = fn then some f else s.open_files n }

/-- Modelled from the spec: construction of a fresh `SsbLoadedFile`
(`model/ssb_files/file.py` is not under the sources).  Per the spec a file
created fresh from the archive has `ram_state_up_to_date = true` (it matches
the stored unit), `not_breakable = false`, and is opened nowhere; its model
is the deserialized archive content. -/
def defaultLoadedFile (fn : String) (romContent : Nat) : SsbLoadedFile :=
  { filename := fn
    ssb_model := romContent
    source_map_ssbs := []
    source_map_exps := []
    opened_in_editor := false
    opened_in_ground_engine := false
    ram_state_up_to_date := true
    not_breakable := false }

/-- Modelled from the spec: `SsbLoadedFile.signal_editor_reload`
(`model/ssb_files/file.py` is not under the sources) notifies the editors of
a reload; here the emission is recorded in the observation trace. -/
def signalEditorReload (s : FMState) (fn : String) : FMState :=
  { s with events := s.events ++ [fn] }

namespace SsbFileManager

/-- `SsbFileManager.get`: returns the existing entry, or creates one by
deserializing the archive content (lazy creation on first reference). -/
def get (s : FMState) (fn : String) : FMState × SsbLoadedFile :=
  match s.open_files fn with
  | some f => (s, f)
  | none =>
    let f := defaultLoadedFile fn (s.rom fn)
    (setFile s fn f, f)

/-- `SsbFileManager.open_in_editor`: `get`, then set `opened_in_editor`. -/
def open_in_editor (s : FMState) (fn : String) : FMState × SsbLoadedFile :=
  let sf := get s fn
  let f1 := { sf.2 with opened_in_editor := true }
  (setFile sf.1 fn f1, f1)

/-- `SsbFileManager.open_in_ground_engine`: `get`, set
`opened_in_ground_engine`; if `ram_state_up_to_date` was false, set it to
true, clear `not_breakable` and signal an editor reload. -/
def open_in_ground_engine (s : FMState) (fn : String) : FMState × SsbLoadedFile :=
  let sf := get s fn
  let f1 := { sf.2 with opened_in_ground_engine := true }
  let s1 := setFile sf.1 fn f1
  if !f1.ram_state_up_to_date then
    let f2 := { f1 with ram_state_up_to_date := true, not_breakable := false }
    (signalEditorReload (setFile s1 fn f2) fn, f2)
  else
    (s1, f1)

/-- `SsbFileManager.close_in_editor`: no `get` call — a missing entry raises
`KeyError`.  If `ram_state_up_to_date` is false the warning callback is
consulted; a `False` answer aborts with result `false` and no state change,
otherwise `not_breakable` is set.  Finally `opened_in_editor` is cleared and
`true` returned. -/
def close_in_editor (s : FMState) (fn : String) (warning_callback : Bool) :
    FMState × Except PyError Bool :=
  match s.open_files fn with
  | none => (s, Except.error PyError.keyError)
  | some f =>
    if !f.ram_state_up_to_date && !warning_callback then
      (s, Except.ok false)
    else
      let f1 := if !f.ram_state_up_to_date then { f with not_breakable := true } else f
      (setFile s fn { f1 with opened_in_editor := false }, Except.ok true)

/-- `SsbFileManager.close_in_ground_engine`: `get`, clear
`opened_in_ground_engine` and `not_breakable` unconditionally; if
`ram_state_up_to_date` was false, schedule an editor reload; then set
`ram_state_up_to_date` to true. -/
def close_in_ground_engine (s : FMState) (fn : String) : FMState :=
  let sf := get s fn
  let f1 := { sf.2 with opened_in_ground_engine := false, not_breakable := false }
  let s1 := setFile sf.1 fn f1
  let s2 := if !f1.ram_state_up_to_date then signalEditorReload s1 fn else s1
  setFile s2 fn { f1 with ram_state_up_to_date := true }

/-- `SsbFileManager._handle_after_save`: direct dictionary access (may raise
`KeyError`); sets `ram_state_up_to_date` to false, and if the file is not
opened in the ground engine, re-sets it to true and returns `true` (reload
possible), otherwise returns `false`. -/
def handle_after_save (s : FMState) (fn : String) : FMState × Except PyError Bool :=
  match s.open_files fn with
  | none => (s, Except.error PyError.keyError)
  | some f =>
    let f1 := { f with ram_state_up_to_date := false }
    if !f1.opened_in_ground_engine then
      (setFile s fn { f1 with ram_state_up_to_date := true }, Except.ok true)
    else
      (setFile s fn f1, Except.ok false)

/-- `SsbFileManager.save_from_ssb_script`: `get`, compile the code with the
external compiler (abstracted as a function argument), on failure the
exception propagates with no further mutation; on success replace the model
and the SSBScript source map, write the serialized model to the ROM archive
and run `_handle_after_save`. -/
def save_from_ssb_script (compile : String → Except String (Nat × SourceMap))
    (s : FMState) (fn : String) (code : String) : FMState × Except PyError Bool :=
  let sf := get s fn
  match compile code with
  | Except.error msg => (sf.1, Except.error (PyError.compileError msg))
  | Except.ok mm =>
    let f1 := { sf.2 with ssb_model := mm.1, source_map_ssbs := mm.2 }
    let s2 := setFile sf.1 fn f1
    let s3 := { s2 with rom := fun n => if n = fn then mm.1 else s2.rom n }
    handle_after_save s3 fn

/-- `SsbFileManager.save_from_explorerscript`: the body is `pass  # todo`
followed by `return self._handle_after_save(filename)` — no compilation, no
rejection, but the after-save handling still runs (direct dictionary access,
so a missing entry raises `KeyError`). -/
def save_from_explorerscript (s : FMState) (fn : String) (_code : String) :
    FMState × Except PyError Bool :=
  handle_after_save s fn

/-- `SsbFileManager.force_reload`: direct dictionary access (may raise
`KeyError`), then unconditionally signals an editor reload; no validity
check of any kind. -/
def force_reload (s : FMState) (fn : String) : FMState × Except PyError Unit :=
  match s.open_files fn with
  | none => (s, Except.error PyError.keyError)
  | some _ => (signalEditorReload s fn, Except.ok ())

/-- `SsbFileManager.mark_invalid`: `get`, then set `ram_state_up_to_date` to
false and `not_breakable` to true. -/
def mark_invalid (s : FMState) (fn : String) : FMState :=
  let sf := get s fn
  setFile sf.1 fn { sf.2 with ram_state_up_to_date := false, not_breakable := true }

end SsbFileManager

/-- Decidable equality of `Except` results, used to evaluate concrete
operation outcomes. -/
instance {ε α : Type} [DecidableEq ε] [DecidableEq α] : DecidableEq (Except ε α) :=
  fun x y =>
    match x, y with
    | Except.ok a, Except.ok b =>
      if h : a = b then Decidable.isTrue (by rw [h])
      else Decidable.isFalse (fun hh => h (Except.ok.inj hh))
    | Except.error a, Except.error b =>
      if h : a = b then Decidable.isTrue (by rw [h])
      else Decidable.isFalse (fun hh => h (Except.error.inj hh))
    | Except.ok _, Except.error _ => Decidable.isFalse (fun hh => Except.noConfusion hh)
    | Except.error _, Except.ok _ => Decidable.isFalse (fun hh => Except.noConfusion hh)

/-- Concrete sample file, for witnesses and counterexamples. -/
def sampleFile (oie oige ram nb : Bool) : SsbLoadedFile :=
  { filename := "a"
    ssb_model := 0
    source_map_ssbs := []
    source_map_exps := []
    opened_in_editor := oie
    opened_in_ground_engine := oige
    ram_state_up_to_date := ram
    not_breakable := nb }

/-- Concrete manager state tracking exactly the file `"a"`. -/
def sampleState (f : SsbLoadedFile) : FMState :=
  { open_files := fun n => if n = "a" then some f else none
    rom := fun _ => 0
    events := [] }

/-- A sample compiler that always succeeds with model id 7 and an empty
source map. -/
def okCompiler : String → Except String (Nat × SourceMap) :=
  fun _ => Except.ok (7, [])

/-- A sample compiler that always fails. -/
def badCompiler : String → Except String (Nat × SourceMap) :=
  fun _ => Except.error "bad"

/-- A text mark in a GtkSource buffer that the editor controller recognises:
a `routine_{r}_opcode_{o}` mark (active source-map namespace) or a
`TMP_routine_{r}_opcode_{o}` mark (provisional namespace created at save
time). -/
inductive TextMark
  | routineMark (routine_id : Nat) (opcode_offset : Nat)
  | tmpRoutineMark (routine_id : Nat) (opcode_offset : Nat)
deriving DecidableEq, Repr

/-- The `name.startswith(marker_prefix)` test of `_get_opcode_in_line`: with
`use_temp_markers = False` the marker namespace is `routine_` (a
`TMP_routine_...` name does not start with `routine_`), with `True` it is
`TMP_routine_`. -/
def markMatches (useTemp : Bool) (m : TextMark) : Bool :=
  match useTemp, m with
  | false, TextMark.routineMark _ _ => true
  | true, TextMark.tmpRoutineMark _ _ => true
  | _, _ => false

/-- The `(routine id, opcode offset)` encoded in a mark's name (the two
regex groups of `MARK_PATTERN` / `MARK_PATTERN_TMP`). -/
def markKey : TextMark → Nat × Nat
  | TextMark.routineMark r o => (r, o)
  | TextMark.tmpRoutineMark r o => (r, o)

/-- One line of a buffer: the text marks sitting at each character position
(left to right), and the number of `breakpoint`-category source marks on the
line. -/
structure BufferLine where
  marksAtPos : List (List TextMark)
  breakpointLineMarks : Nat
deriving DecidableEq, Repr

/-- A `Gtk.TextBuffer` as far as the controller observes it: its lines. -/
structure TextBufferM where
  lines : List BufferLine
deriving DecidableEq, Repr

/-- Replace the element at an index of a list (identity when out of
range). -/
def listModify {α : Type} (l : List α) (i : Nat) (g : α → α) : List α :=
  match l, i with
  | [], _ => []
  | x :: xs, 0 => g x :: xs
  | x :: xs, Nat.succ j => x :: listModify xs j g

/-- Clamping behaviour of `Gtk.TextBuffer.get_iter_at_line_offset`: an
out-of-range line or offset yields an iterator at the last valid place. -/
def clampIdx (len i : Nat) : Nat := min i (len - 1)

/-- `buffer.create_mark(name, buffer.get_iter_at_line_offset(line, column))`:
append the mark to the marks at the (clamped) position. -/
def addMarkAt (buf : TextBufferM) (line col : Nat) (m : TextMark) : TextBufferM :=
  if buf.lines.isEmpty then buf
  else
    { lines := listModify buf.lines (clampIdx buf.lines.length line) (fun bl =>
        if bl.marksAtPos.isEmpty then bl
        else
          { bl with
            marksAtPos :=
              listModify bl.marksAtPos (clampIdx bl.marksAtPos.length col)
                (fun ms => ms ++ [m]) }) }

/-- The save-time loop `for routine_id, opcode_offset, line, column in
model.source_map: buffer.create_mark(f'TMP_routine_..._opcode_...', ...)` of
`SSBEditorController.save`. -/
def create_tmp_marks (buf : TextBufferM) (smap : SourceMap) : TextBufferM :=
  smap.foldl
    (fun b e =>
      addMarkAt b e.line e.column (TextMark.tmpRoutineMark e.routine_id e.opcode_offset))
    buf

/-- The scanning loop of `_get_opcode_in_line`: walk the positions of a line
left to right; at the first position holding a mark whose name matches the
requested namespace, return the key of the first such mark. -/
def firstMatchInPositions (useTemp : Bool) : List (List TextMark) → Option (Nat × Nat)
  | [] => none
  | pos :: rest =>
    match (pos.filter (markMatches useTemp)).head? with
    | some m => some (markKey m)
    | none => firstMatchInPositions useTemp rest

/-- `SSBEditorController._get_opcode_in_line(buffer, line, use_temp_markers)`:
`None` when the line does not exist or no matching mark sits on it. -/
def get_opcode_in_line (buf : TextBufferM) (line : Nat) (useTemp : Bool) :
    Option (Nat × Nat) :=
  match buf.lines[line]? with
  | none => none
  | some l => firstMatchInPositions useTemp l.marksAtPos

/-- `SSBEditorController.add_breakpoint(line_number, view)`: resolve the
0-indexed line via `_get_opcode_in_line` with the default (active,
`routine_`) namespace; on `None`, do nothing; otherwise call
`breakpoint_manager.add(filename, routine_id, opcode_offset)`.  The result
is the `add` call performed (`none` when no call is made).  The tracked file
`f` is the controller's `self._ssb`; the code never consults
`f.not_breakable`. -/
def add_breakpoint (f : SsbLoadedFile) (buf : TextBufferM) (line_number : Nat) :
    Option (String × Nat × Nat) :=
  match get_opcode_in_line buf (line_number - 1) false with
  | none => none
  | some ro => some (f.filename, ro.1, ro.2)

/-- The breakpoint-resync loop of `SSBEditorController.save`: for every line
of the modified buffer carrying at least one `breakpoint` source mark, look
up `_get_opcode_in_line(buffer, line)` (active namespace, the default) and
collect the keys; lines where the lookup returns `None` are skipped. -/
def linesWithBreakpointScan (modified buffer : TextBufferM) : List (Nat × Nat) :=
  (List.range modified.lines.length).filterMap (fun line =>
    match modified.lines[line]? with
    | some bl =>
      if bl.breakpointLineMarks > 0 then get_opcode_in_line buffer line false else none
    | none => none)

/-- The save postlude of `SSBEditorController.save` that determines the keys
submitted to `BreakpointManager.resync`: first the `TMP_routine_...` marks of
the (already recompiled, hence provisional) source maps are created in both
views' buffers, then the resync loop runs over the modified buffer, looking
keys up in the compile-source buffer (the ExplorerScript one when
`_explorerscript_active`, else the SSBScript one).  The modified buffer is
one of the two view buffers (they alias the same objects), selected by
`modifiedIsExps`. -/
def save_resync_keys (ssbsBuf expsBuf : TextBufferM) (ssbsMap expsMap : SourceMap)
    (explorerscriptActive modifiedIsExps : Bool) : List (Nat × Nat) :=
  let ssbs1 := create_tmp_marks ssbsBuf ssbsMap
  let exps1 := create_tmp_marks expsBuf expsMap
  let buffer := if explorerscriptActive then exps1 else ssbs1
  let modified := if modifiedIsExps then exps1 else ssbs1
  linesWithBreakpointScan modified buffer

/-- The resync keys as worded by claim C2 / spec §4.2 step 2: for every
marked line of the edited buffer, the key of the provisional source-map
entry whose `(line, column)` falls on that line; a marked line with no
covering entry is dropped. -/
def spec_resync_keys (modified : TextBufferM) (provisional : SourceMap) :
    List (Nat × Nat) :=
  (List.range modified.lines.length).filterMap (fun line =>
    match modified.lines[line]? with
    | some bl =>
      if bl.breakpointLineMarks > 0 then
        (provisional.find? (fun e => e.line == line)).map
          (fun e => (e.routine_id, e.opcode_offset))
      else none
    | none => none)

/-- Concrete one-line buffer: a breakpoint line mark, and one
active-namespace text mark `routine_0_opcode_4` at the first position. -/
def cexBuf : TextBufferM :=
  { lines := [{ marksAtPos := [[TextMark.routineMark 0 4]], breakpointLineMarks := 1 }] }

/-- Concrete provisional source map whose only entry covers line 0 with the
key `(0, 8)`. -/
def cexProvisionalMap : SourceMap :=
  [{ routine_id := 0, opcode_offset := 8, line := 0, column := 0 }]

/-- The projection of a buffer line that determines active-namespace lookups
and the breakpoint-line scan: the active-mark content of every position, and
the number of breakpoint line marks. -/
def lineView (bl : BufferLine) : List (List TextMark) × Nat :=
  (bl.marksAtPos.map (fun ms => ms.filter (markMatches false)), bl.breakpointLineMarks)

/-- Claim C3: a successful save returns reload-ready (`true`) with
`ram_state_up_to_date` ending true exactly when `opened_in_ground_engine` is
false at save time; when it is true, the save returns deferred (`false`) and
`ram_state_up_to_date` ends false. -/
theorem save_from_ssb_script_reload_readiness
    (compile : String → Except String (Nat × SourceMap))
    (s : FMState) (fn code : String) (f : SsbLoadedFile) (mm : Nat × SourceMap)
    (h : s.open_files fn = some f) (hc : compile code = Except.ok mm) :
    (SsbFileManager.save_from_ssb_script compile s fn code).2
        = Except.ok (!f.opened_in_ground_engine) ∧
    ((SsbFileManager.save_from_ssb_script compile s fn code).1.open_files fn).map
        SsbLoadedFile.ram_state_up_to_date = some (!f.opened_in_ground_engine) := by
  cases hg : f.opened_in_ground_engine <;>
    simp [SsbFileManager.save_from_ssb_script, SsbFileManager.get, h, hc,
      SsbFileManager.handle_after_save, setFile, hg]

theorem save_from_ssb_script_reload_readiness_witness :
    (sampleState (sampleFile false false true false)).open_files "a"
        = some (sampleFile false false true false) ∧
    okCompiler "code" = Except.ok (7, []) ∧
    ((SsbFileManager.save_from_ssb_script okCompiler
        (sampleState (sampleFile false false true false)) "a" "code").2
          = Except.ok true ∧
     ((SsbFileManager.save_from_ssb_script okCompiler
        (sampleState (sampleFile false false true false)) "a" "code").1.open_files "a").map
          SsbLoadedFile.ram_state_up_to_date = some true) :=
  ⟨by decide, rfl,
    save_from_ssb_script_reload_readiness okCompiler
      (sampleState (sampleFile false false true false)) "a" "code"
      (sampleFile false false true false) (7, []) (by decide) rfl⟩

/-- Claim C4: `open_in_ground_engine` on a tracked file with
`ram_state_up_to_date = false` sets `opened_in_ground_engine`, re-sets
`ram_state_up_to_date`, clears `not_breakable` and emits exactly one reload
event; with `ram_state_up_to_date = true` it only sets
`opened_in_ground_engine` and emits no reload event. -/
theorem open_in_ground_engine_reload_behaviour
    (s : FMState) (fn : String) (f : SsbLoadedFile) (h : s.open_files fn = some f) :
    (f.ram_state_up_to_date = false →
      (SsbFileManager.open_in_ground_engine s fn).1.open_files fn
          = some { f with opened_in_ground_engine := true,
                          ram_state_up_to_date := true, not_breakable := false } ∧
      (SsbFileManager.open_in_ground_engine s fn).1.events = s.events ++ [fn]) ∧
    (f.ram_state_up_to_date = true →
      (SsbFileManager.open_in_ground_engine s fn).1.open_files fn
          = some { f with opened_in_ground_engine := true } ∧
      (SsbFileManager.open_in_ground_engine s fn).1.events = s.events) := by
  constructor <;> intro hr <;>
    simp [SsbFileManager.open_in_ground_engine, SsbFileManager.get, h, hr,
      signalEditorReload, setFile]

theorem open_in_ground_engine_reload_behaviour_witness :
    (sampleState (sampleFile false false false false)).open_files "a"
        = some (sampleFile false false false false) ∧
    (((sampleFile false false false false).ram_state_up_to_date = false →
      (SsbFileManager.open_in_ground_engine
          (sampleState (sampleFile false false false false)) "a").1.open_files "a"
          = some { (sampleFile false false false false) with
                     opened_in_ground_engine := true,
                     ram_state_up_to_date := true, not_breakable := false } ∧
      (SsbFileManager.open_in_ground_engine
          (sampleState (sampleFile false false false false)) "a").1.events
          = (sampleState (sampleFile false false false false)).events ++ ["a"]) ∧
     ((sampleFile false false false false).ram_state_up_to_date = true →
      (SsbFileManager.open_in_ground_engine
          (sampleState (sampleFile false false false false)) "a").1.open_files "a"
          = some { (sampleFile false false false false) with
                     opened_in_ground_engine := true } ∧
      (SsbFileManager.open_in_ground_engine
          (sampleState (sampleFile false false false false)) "a").1.events
          = (sampleState (sampleFile false false false false)).events)) :=
  ⟨by decide,
    open_in_ground_engine_reload_behaviour
      (sampleState (sampleFile false false false false)) "a"
      (sampleFile false false false false) (by decide)⟩

/-- Claim C5: `close_in_ground_engine` on a tracked file unconditionally
clears `opened_in_ground_engine` and `not_breakable`, leaves
`ram_state_up_to_date = true` in every case, and schedules a reload event
exactly when `ram_state_up_to_date` was false on entry. -/
theorem close_in_ground_engine_behaviour
    (s : FMState) (fn : String) (f : SsbLoadedFile) (h : s.open_files fn = some f) :
    (SsbFileManager.close_in_ground_engine s fn).open_files fn
        = some { f with opened_in_ground_engine := false, not_breakable := false,
                        ram_state_up_to_date := true } ∧
    (SsbFileManager.close_in_ground_engine s fn).events
        = (if f.ram_state_up_to_date = false then s.events ++ [fn] else s.events) := by
  cases hr : f.ram_state_up_to_date <;>
    simp [SsbFileManager.close_in_ground_engine, SsbFileManager.get, h, hr,
      signalEditorReload, setFile]

theorem close_in_ground_engine_behaviour_witness :
    (sampleState (sampleFile false true false true)).open_files "a"
        = some (sampleFile false true false true) ∧
    ((SsbFileManager.close_in_ground_engine
        (sampleState (sampleFile false true false true)) "a").open_files "a"
        = some { (sampleFile false true false true) with
                   opened_in_ground_engine := false,
                   not_breakable := false, ram_state_up_to_date := true } ∧
     (SsbFileManager.close_in_ground_engine
        (sampleState (sampleFile false true false true)) "a").events
        = (if (sampleFile false true false true).ram_state_up_to_date = false
           then (sampleState (sampleFile false true false true)).events ++ ["a"]
           else (sampleState (sampleFile false true false true)).events)) :=
  ⟨by decide,
    close_in_ground_engine_behaviour
      (sampleState (sampleFile false true false true)) "a"
      (sampleFile false true false true) (by decide)⟩

/-- Claim C6: `close_in_editor` on a tracked file with
`ram_state_up_to_date = false`: if the confirmation callback answers false,
the call returns false and the whole state — in particular all four flags —
is unchanged; if it answers true, `not_breakable` is set, then
`opened_in_editor` cleared, and the call returns true. -/
theorem close_in_editor_confirm_behaviour
    (s : FMState) (fn : String) (f : SsbLoadedFile)
    (h : s.open_files fn = some f) (hr : f.ram_state_up_to_date = false) :
    SsbFileManager.close_in_editor s fn false = (s, Except.ok false) ∧
    SsbFileManager.close_in_editor s fn true
        = (setFile s fn { f with not_breakable := true, opened_in_editor := false },
           Except.ok true) := by
  simp [SsbFileManager.close_in_editor, h, hr]

theorem close_in_editor_confirm_behaviour_witness :
    (sampleState (sampleFile true true false false)).open_files "a"
        = some (sampleFile true true false false) ∧
    (sampleFile true true false false).ram_state_up_to_date = false ∧
    (SsbFileManager.close_in_editor (sampleState (sampleFile true true false false)) "a" false
        = (sampleState (sampleFile true true false false), Except.ok false) ∧
     SsbFileManager.close_in_editor (sampleState (sampleFile true true false false)) "a" true
        = (setFile (sampleState (sampleFile true true false false)) "a"
             { (sampleFile true true false false) with
                 not_breakable := true, opened_in_editor := false },
           Except.ok true)) :=
  ⟨by decide, by decide,
    close_in_editor_confirm_behaviour (sampleState (sampleFile true true false false)) "a"
      (sampleFile true true false false) (by decide) (by decide)⟩

/-- Claim C7: when the compiler fails, `save_from_ssb_script` on a tracked
file propagates the compile error and the manager state — files, their flags
and source maps, the ROM archive, and the event trace — is exactly the state
it started from. -/
theorem save_from_ssb_script_compile_error_no_mutation
    (compile : String → Except String (Nat × SourceMap))
    (s : FMState) (fn code msg : String) (f : SsbLoadedFile)
    (h : s.open_files fn = some f) (hc : compile code = Except.error msg) :
    SsbFileManager.save_from_ssb_script compile s fn code
        = (s, Except.error (PyError.compileError msg)) := by
  simp [SsbFileManager.save_from_ssb_script, SsbFileManager.get, h, hc]

theorem save_from_ssb_script_compile_error_no_mutation_witness :
    (sampleState (sampleFile true false true false)).open_files "a"
        = some (sampleFile true false true false) ∧
    badCompiler "code" = Except.error "bad" ∧
    SsbFileManager.save_from_ssb_script badCompiler
        (sampleState (sampleFile true false true false)) "a" "code"
      = (sampleState (sampleFile true false true false),
         Except.error (PyError.compileError "bad")) :=
  ⟨by decide, rfl,
    save_from_ssb_script_compile_error_no_mutation badCompiler
      (sampleState (sampleFile true false true false)) "a" "code" "bad"
      (sampleFile true false true false) (by decide) rfl⟩

/-- Claim C8, counterexample: saving the non-authoritative (ExplorerScript)
projection of a tracked file that is up to date and loaded in the ground
engine is not rejected — the call returns the after-save result `false`
(deferred), no `ProjectionNotEditable` error exists anywhere in the code,
and the state does change: `ram_state_up_to_date` flips from true to
false. -/
theorem save_from_explorerscript_not_rejected_cex :
    (SsbFileManager.save_from_explorerscript
        (sampleState (sampleFile true true true false)) "a" "code").2
      = Except.ok false ∧
    (SsbFileManager.save_from_explorerscript
        (sampleState (sampleFile true true true false)) "a" "code").1.open_files "a"
      = some { (sampleFile true true true false) with ram_state_up_to_date := false } ∧
    (sampleFile true true true false).ram_state_up_to_date = true := by
  decide

/-- Claim C8, amended: `save_from_explorerscript` is an unimplemented stub —
it performs no compilation and no rejection; it still runs the after-save
handling, so on a tracked file it sets `ram_state_up_to_date` to false and,
when the file is not opened in the ground engine, re-sets it to true and
returns `true`, otherwise returns `false`. -/
theorem save_from_explorerscript_stub_behaviour
    (s : FMState) (fn code : String) (f : SsbLoadedFile)
    (h : s.open_files fn = some f) :
    SsbFileManager.save_from_explorerscript s fn code
        = (if f.opened_in_ground_engine
           then (setFile s fn { f with ram_state_up_to_date := false }, Except.ok false)
           else (setFile s fn { f with ram_state_up_to_date := true }, Except.ok true)) := by
  cases hg : f.opened_in_ground_engine <;>
    simp [SsbFileManager.save_from_explorerscript, SsbFileManager.handle_after_save, h, hg]

theorem save_from_explorerscript_stub_behaviour_witness :
    (sampleState (sampleFile true false false false)).open_files "a"
        = some (sampleFile true false false false) ∧
    SsbFileManager.save_from_explorerscript
        (sampleState (sampleFile true false false false)) "a" "code"
      = (if (sampleFile true false false false).opened_in_ground_engine
         then (setFile (sampleState (sampleFile true false false false)) "a"
                 { (sampleFile true false false false) with ram_state_up_to_date := false },
               Except.ok false)
         else (setFile (sampleState (sampleFile true false false false)) "a"
                 { (sampleFile true false false false) with ram_state_up_to_date := true },
               Except.ok true)) :=
  ⟨by decide,
    save_from_explorerscript_stub_behaviour
      (sampleState (sampleFile true false false false)) "a" "code"
      (sampleFile true false false false) (by decide)⟩

/-- Claim C9, counterexample: `force_reload` on a freshly tracked file that
was never saved (so no save ever returned reload-ready; the event trace is
empty) does not signal any error — it succeeds and synchronously emits the
reload event. -/
theorem force_reload_no_error_cex :
    (SsbFileManager.force_reload
        (sampleState (sampleFile false false true false)) "a").2 = Except.ok () ∧
    (SsbFileManager.force_reload
        (sampleState (sampleFile false false true false)) "a").1.events = ["a"] := by
  decide

/-- Claim C9, amended: `force_reload` performs no validity check at all: on
any tracked file, in any state, it synchronously emits the reload event and
succeeds; the only failure mode is a `KeyError` on an untracked filename. -/
theorem force_reload_unchecked
    (s : FMState) (fn : String) (f : SsbLoadedFile) (h : s.open_files fn = some f) :
    SsbFileManager.force_reload s fn
        = ({ s with events := s.events ++ [fn] }, Except.ok ()) := by
  simp [SsbFileManager.force_reload, h, signalEditorReload]

theorem force_reload_unchecked_witness :
    (sampleState (sampleFile true true false true)).open_files "a"
        = some (sampleFile true true false true) ∧
    SsbFileManager.force_reload (sampleState (sampleFile true true false true)) "a"
      = ({ sampleState (sampleFile true true false true) with
             events := (sampleState (sampleFile true true false true)).events ++ ["a"] },
         Except.ok ()) :=
  ⟨by decide,
    force_reload_unchecked (sampleState (sampleFile true true false true)) "a"
      (sampleFile true true false true) (by decide)⟩

/-- Claim C10: on a filename with no tracked entry, `close_in_editor` raises
`KeyError` (and creates nothing), while `get`, `open_in_editor`,
`open_in_ground_engine`, `close_in_ground_engine` and `mark_invalid` all
create the entry on first reference. -/
theorem close_in_editor_keyerror_untracked
    (s : FMState) (fn : String) (cb : Bool) (h : s.open_files fn = none) :
    SsbFileManager.close_in_editor s fn cb = (s, Except.error PyError.keyError) ∧
    ((SsbFileManager.get s fn).1.open_files fn).isSome = true ∧
    ((SsbFileManager.open_in_editor s fn).1.open_files fn).isSome = true ∧
    ((SsbFileManager.open_in_ground_engine s fn).1.open_files fn).isSome = true ∧
    ((SsbFileManager.close_in_ground_engine s fn).open_files fn).isSome = true ∧
    ((SsbFileManager.mark_invalid s fn).open_files fn).isSome = true := by
  refine ⟨?_, ?_, ?_, ?_, ?_, ?_⟩ <;>
    simp [SsbFileManager.close_in_editor, SsbFileManager.get,
      SsbFileManager.open_in_editor, SsbFileManager.open_in_ground_engine,
      SsbFileManager.close_in_ground_engine, SsbFileManager.mark_invalid,
      h, setFile, signalEditorReload, defaultLoadedFile]

theorem close_in_editor_keyerror_untracked_witness :
    (sampleState (sampleFile false false true false)).open_files "b" = none ∧
    (SsbFileManager.close_in_editor (sampleState (sampleFile false false true false)) "b" true
        = (sampleState (sampleFile false false true false), Except.error PyError.keyError) ∧
     ((SsbFileManager.get
        (sampleState (sampleFile false false true false)) "b").1.open_files "b").isSome = true ∧
     ((SsbFileManager.open_in_editor
        (sampleState (sampleFile false false true false)) "b").1.open_files "b").isSome = true ∧
     ((SsbFileManager.open_in_ground_engine
        (sampleState (sampleFile false false true false)) "b").1.open_files "b").isSome = true ∧
     ((SsbFileManager.close_in_ground_engine
        (sampleState (sampleFile false false true false)) "b").open_files "b").isSome = true ∧
     ((SsbFileManager.mark_invalid
        (sampleState (sampleFile false false true false)) "b").open_files "b").isSome = true) :=
  ⟨by decide,
    close_in_editor_keyerror_untracked
      (sampleState (sampleFile false false true false)) "b" true (by decide)⟩

/-- `listModify` preserves the length of the list. -/
theorem listModify_length {α : Type} (l : List α) (i : Nat) (g : α → α) :
    (listModify l i g).length = l.length := by
  induction l generalizing i with
  | nil => rfl
  | cons x xs ih =>
    cases i with
    | zero => rfl
    | succ j => simp [listModify, ih]

/-- Lookup into a modified list. -/
theorem listModify_getElem? {α : Type} (l : List α) (i j : Nat) (g : α → α) :
    (listModify l i g)[j]? = if j = i then (l[j]?).map g else l[j]? := by
  induction l generalizing i j with
  | nil => simp [listModify]
  | cons x xs ih =>
    cases i with
    | zero =>
      cases j with
      | zero => simp [listModify]
      | succ k => simp [listModify]
    | succ m =>
      cases j with
      | zero => simp [listModify]
      | succ k => simpa [listModify] using ih m k

/-- Appending a provisional-namespace mark does not change the
active-namespace content of a position. -/
theorem filter_append_tmp (ms : List TextMark) (r o : Nat) :
    (ms ++ [TextMark.tmpRoutineMark r o]).filter (markMatches false)
      = ms.filter (markMatches false) := by
  rw [List.filter_append]
  simp [markMatches]

/-- Appending a provisional-namespace mark somewhere in a line does not
change the line's active-namespace view. -/
theorem map_filter_listModify_tmp (l : List (List TextMark)) (c r o : Nat) :
    (listModify l c (fun ms => ms ++ [TextMark.tmpRoutineMark r o])).map
        (fun ms => ms.filter (markMatches false))
      = l.map (fun ms => ms.filter (markMatches false)) := by
  induction l generalizing c with
  | nil => rfl
  | cons x xs ih =>
    cases c with
    | zero => simp [listModify, filter_append_tmp, markMatches]
    | succ j => simp [listModify, ih]

/-- `addMarkAt` with a provisional-namespace mark preserves every line's
view (active-namespace marks and breakpoint line marks). -/
theorem addMarkAt_lineView (buf : TextBufferM) (line col r o : Nat) (i : Nat) :
    ((addMarkAt buf line col (TextMark.tmpRoutineMark r o)).lines[i]?).map lineView
      = (buf.lines[i]?).map lineView := by
  unfold addMarkAt
  by_cases hemp : buf.lines.isEmpty
  · simp [hemp]
  · simp only [hemp, if_false, Bool.false_eq_true]
    rw [listModify_getElem?]
    by_cases hi : i = clampIdx buf.lines.length line
    · rw [if_pos hi]
      cases hbl : buf.lines[i]? with
      | none => rfl
      | some bl =>
        simp only [Option.map_some']
        by_cases h2 : bl.marksAtPos.isEmpty
        · simp [h2]
        · simp [h2, lineView, map_filter_listModify_tmp]
    · rw [if_neg hi]

/-- `create_tmp_marks` preserves every line's view. -/
theorem create_tmp_marks_lineView (smap : SourceMap) (buf : TextBufferM) (i : Nat) :
    ((create_tmp_marks buf smap).lines[i]?).map lineView
      = (buf.lines[i]?).map lineView := by
  induction smap generalizing buf with
  | nil => rfl
  | cons e rest ih =>
    calc ((create_tmp_marks buf (e :: rest)).lines[i]?).map lineView
        = ((create_tmp_marks
              (addMarkAt buf e.line e.column
                (TextMark.tmpRoutineMark e.routine_id e.opcode_offset)) rest).lines[i]?).map
            lineView := rfl
      _ = ((addMarkAt buf e.line e.column
              (TextMark.tmpRoutineMark e.routine_id e.opcode_offset)).lines[i]?).map
            lineView := ih _
      _ = (buf.lines[i]?).map lineView :=
            addMarkAt_lineView buf e.line e.column e.routine_id e.opcode_offset i

/-- `addMarkAt` preserves the number of lines. -/
theorem addMarkAt_lines_length (buf : TextBufferM) (line col : Nat) (m : TextMark) :
    (addMarkAt buf line col m).lines.length = buf.lines.length := by
  unfold addMarkAt
  by_cases hemp : buf.lines.isEmpty
  · simp [hemp]
  · simp [hemp, listModify_length]

/-- `create_tmp_marks` preserves the number of lines. -/
theorem create_tmp_marks_lines_length (smap : SourceMap) (buf : TextBufferM) :
    (create_tmp_marks buf smap).lines.length = buf.lines.length := by
  induction smap generalizing buf with
  | nil => rfl
  | cons e rest ih =>
    calc (create_tmp_marks buf (e :: rest)).lines.length
        = (create_tmp_marks
            (addMarkAt buf e.line e.column
              (TextMark.tmpRoutineMark e.routine_id e.opcode_offset)) rest).lines.length := rfl
      _ = (addMarkAt buf e.line e.column
            (TextMark.tmpRoutineMark e.routine_id e.opcode_offset)).lines.length := ih _
      _ = buf.lines.length := addMarkAt_lines_length ..

/-- The first active-namespace match of a line only depends on the line's
active-namespace view. -/
theorem firstMatch_eq_of_filter_eq (l₁ l₂ : List (List TextMark))
    (h : l₁.map (fun ms => ms.filter (markMatches false))
       = l₂.map (fun ms => ms.filter (markMatches false))) :
    firstMatchInPositions false l₁ = firstMatchInPositions false l₂ := by
  induction l₁ generalizing l₂ with
  | nil =>
    cases l₂ with
    | nil => rfl
    | cons y ys => simp at h
  | cons x xs ih =>
    cases l₂ with
    | nil => simp at h
    | cons y ys =>
      simp only [List.map_cons, List.cons.injEq] at h
      simp only [firstMatchInPositions]
      rw [h.1]
      cases hh : (y.filter (markMatches false)).head? with
      | some m => rfl
      | none => exact ih ys h.2

/-- Creating the provisional marks does not change active-namespace
lookups. -/
theorem get_opcode_in_line_create_tmp (buf : TextBufferM) (smap : SourceMap) (line : Nat) :
    get_opcode_in_line (create_tmp_marks buf smap) line false
      = get_opcode_in_line buf line false := by
  unfold get_opcode_in_line
  have hv := create_tmp_marks_lineView smap buf line
  cases h1 : (create_tmp_marks buf smap).lines[line]? with
  | none =>
    cases h2 : buf.lines[line]? with
    | none => rfl
    | some bl => rw [h1, h2] at hv; simp at hv
  | some bl1 =>
    cases h2 : buf.lines[line]? with
    | none => rw [h1, h2] at hv; simp at hv
    | some bl2 =>
      rw [h1, h2] at hv
      have hv2 : lineView bl1 = lineView bl2 := by simpa using hv
      exact firstMatch_eq_of_filter_eq _ _ (congrArg Prod.fst hv2)

/-- Creating the provisional marks does not change the breakpoint-line-mark
count of any line. -/
theorem breakpoint_marks_create_tmp (buf : TextBufferM) (smap : SourceMap) (line : Nat) :
    ((create_tmp_marks buf smap).lines[line]?).map BufferLine.breakpointLineMarks
      = (buf.lines[line]?).map BufferLine.breakpointLineMarks := by
  have hv := create_tmp_marks_lineView smap buf line
  cases h1 : (create_tmp_marks buf smap).lines[line]? with
  | none =>
    cases h2 : buf.lines[line]? with
    | none => rfl
    | some bl => rw [h1, h2] at hv; simp at hv
  | some bl1 =>
    cases h2 : buf.lines[line]? with
    | none => rw [h1, h2] at hv; simp at hv
    | some bl2 =>
      rw [h1, h2] at hv
      have hv2 : lineView bl1 = lineView bl2 := by simpa using hv
      have : bl1.breakpointLineMarks = bl2.breakpointLineMarks :=
        congrArg Prod.snd hv2
      simp [this]

/-- The resync scan is unchanged by the provisional-mark creation on either
buffer. -/
theorem linesWithBreakpointScan_create_tmp
    (b1 b2 : TextBufferM) (m1 m2 : SourceMap) :
    linesWithBreakpointScan (create_tmp_marks b1 m1) (create_tmp_marks b2 m2)
      = linesWithBreakpointScan b1 b2 := by
  unfold linesWithBreakpointScan
  rw [create_tmp_marks_lines_length]
  refine congrArg (fun f => List.filterMap f (List.range b1.lines.length))
    (funext fun line => ?_)
  have hbm := breakpoint_marks_create_tmp b1 m1 line
  have hop := get_opcode_in_line_create_tmp b2 m2 line
  cases h1 : (create_tmp_marks b1 m1).lines[line]? with
  | none =>
    cases h2 : b1.lines[line]? with
    | none => rfl
    | some bl => rw [h1, h2] at hbm; simp at hbm
  | some bl1 =>
    cases h2 : b1.lines[line]? with
    | none => rw [h1, h2] at hbm; simp at hbm
    | some bl2 =>
      rw [h1, h2] at hbm
      have hb : bl1.breakpointLineMarks = bl2.breakpointLineMarks := by simpa using hbm
      simp only [hb, hop]

/-- Claim C1 (code bug): `add_breakpoint` never consults `not_breakable`: on
a file with `not_breakable = true` whose buffer holds an active source-map
mark `routine_0_opcode_4` on the clicked line, it still submits the key to
the breakpoint manager (`BreakpointManager.add("a", 0, 4)`) instead of
failing with `FileNotBreakable` — no such error exists in the code. -/
theorem add_breakpoint_ignores_not_breakable :
    (sampleFile false true false true).not_breakable = true ∧
    add_breakpoint (sampleFile false true false true) cexBuf 1 = some ("a", 0, 4) := by
  decide

/-- Claim C2, counterexample: on a buffer whose marked line 0 carries the
pre-save mark `routine_0_opcode_4` while the provisional source map's entry
for line 0 has key `(0, 8)`, the save resync submits `(0, 4)` — the old key,
not the provisional entry's `(0, 8)` the claim requires. -/
theorem resync_uses_old_marks_cex :
    save_resync_keys cexBuf { lines := [] } cexProvisionalMap [] false false = [(0, 4)] ∧
    spec_resync_keys cexBuf cexProvisionalMap = [(0, 8)] := by
  decide

/-- Claim C2, amended: the keys submitted at save time come from the
pre-save (`routine_`) mark namespace, not from the provisional source map:
creating the `TMP_routine_` marks of the provisional maps changes nothing,
and the submitted list is exactly the scan of the original buffers — for
every line of the modified buffer carrying a breakpoint line mark, the key
of the first old-namespace mark on that line of the compile-source buffer; a
marked line with no old-namespace mark is dropped. -/
theorem save_resync_keys_from_old_marks
    (ssbsBuf expsBuf : TextBufferM) (ssbsMap expsMap : SourceMap)
    (ea me : Bool) :
    save_resync_keys ssbsBuf expsBuf ssbsMap expsMap ea me
      = linesWithBreakpointScan (if me then expsBuf else ssbsBuf)
          (if ea then expsBuf else ssbsBuf) := by
  unfold save_resync_keys
  cases ea <;> cases me <;>
    simp only [Bool.false_eq_true, if_false, if_true] <;>
    exact linesWithBreakpointScan_create_tmp ..
